import Mathlib

/-!
Shallow embedding of the repochief-quality-gates orchestration core:
the gate executor (BaseQualityGate.run / executeWithTimeout), the
scheduler (QualityRunner._runSequential / _runParallel) and the
aggregation/reporting layer (ResultReporter.reportResult, flushBatch,
generateSummary, storeSummary).

Modelling conventions:
* A JS result object is one record type `JResult` with optional fields;
  fields a given code path never sets stay `none`.  Free-form gate
  payload (issues, stats, details) is abstracted into `payload`.
* Asynchronous execution is embedded as an oracle: each attempt of a
  gate's `execute` (run under `executeWithTimeout`) either resolves to a
  `JResult` or raises an error message (`Except String JResult`), the
  raised message covering both a thrown error and the synthesized
  timeout rejection.  Wall-clock reads are explicit parameters
  (`dur` for attempt durations, `now` for timestamps).
* The storage collaborator `storeQualityResult` is a function from its
  arguments to `Except String String` (the stored id, or the failure
  message).
-/

namespace QualityGates

/-- A JS result object as the gates, runner and reporter build them. -/
structure JResult where
  status : String
  gate : Option String := none
  gateName : Option String := none
  reason : Option String := none
  error : Option String := none
  duration : Option Nat := none
  attempts : Option Nat := none
  /-- `details.attempts` of the executor's final error result. -/
  detailsAttempts : Option Nat := none
  taskId : Option String := none
  timestamp : Option String := none
  metadata : List (String × String) := []
  stored : Option Bool := none
  storageId : Option String := none
  storageError : Option String := none
  /-- Opaque carrier for gate-specific payload (issues, stats, ...). -/
  payload : String := ""
  deriving DecidableEq

/-- BaseQualityGate constructor state (BaseQualityGate.js lines 216-225). -/
structure BaseQualityGate where
  name : String
  enabled : Bool := true
  timeout : Nat := 30000
  retryCount : Nat := 0
  failureThreshold : Nat := 1
  deriving DecidableEq

/-- The rejection message of `executeWithTimeout` when the deadline
elapses (BaseQualityGate.js line 309). -/
def timeoutMessage (name : String) (timeout : Nat) : String :=
  "Gate " ++ name ++ " timed out after " ++ toString timeout ++ "ms"

/-- The retry loop of `BaseQualityGate.run` (BaseQualityGate.js lines
247-300).  `att n` is the outcome of attempt number `n` (1-based):
`.ok r` when `executeWithTimeout` resolved to `r`, `.error e` when it
rejected (a thrown error or the timeout rejection).  `dur n` is the
wall-clock duration of attempt `n`.  `attempts` counts failed attempts
so far, `fuel` the remaining loop iterations (`retryCount + 1 -
attempts`), `lastErr` the last caught error.  Returns the final result
together with the list of backoff sleeps awaited, in order. -/
def BaseQualityGate.runFrom (g : BaseQualityGate)
    (att : Nat → Except String JResult) (dur : Nat → Nat) :
    Nat → Nat → String → JResult × List Nat
  | attempts, fuel + 1, _lastErr =>
    match att (attempts + 1) with
    | Except.ok r =>
      ({ r with gate := some g.name, duration := some (dur (attempts + 1)),
                attempts := some (attempts + 1) }, [])
    | Except.error e =>
      if attempts + 1 ≤ g.retryCount then
        let next := BaseQualityGate.runFrom g att dur (attempts + 1) fuel e
        (next.1, 1000 * (attempts + 1) :: next.2)
      else
        ({ status := "error", gate := some g.name, error := some e,
           detailsAttempts := some (attempts + 1) }, [])
  | attempts, 0, lastErr =>
    ({ status := "error", gate := some g.name, error := some lastErr,
       detailsAttempts := some attempts }, [])

/-- `BaseQualityGate.run` (BaseQualityGate.js lines 238-301): a disabled
gate returns a skipped result at once; otherwise the retry loop runs
with `retryCount + 1` available iterations. -/
def BaseQualityGate.run (g : BaseQualityGate)
    (att : Nat → Except String JResult) (dur : Nat → Nat) :
    JResult × List Nat :=
  if !g.enabled then
    ({ status := "skipped", gate := some g.name,
       reason := some "Gate is disabled" }, [])
  else
    BaseQualityGate.runFrom g att dur 0 (g.retryCount + 1) ""

instance {ε α : Type} [DecidableEq ε] [DecidableEq α] :
    DecidableEq (Except ε α)
  | Except.ok a, Except.ok b =>
    if h : a = b then isTrue (by rw [h]) else
      isFalse (fun hc => h (by cases hc; rfl))
  | Except.ok _, Except.error _ => isFalse (fun hc => Except.noConfusion hc)
  | Except.error _, Except.ok _ => isFalse (fun hc => Except.noConfusion hc)
  | Except.error e, Except.error f =>
    if h : e = f then isTrue (by rw [h]) else
      isFalse (fun hc => h (by cases hc; rfl))

/-- A registered gate as the runner sees it: its name, the `enabled`
flag of the entry, and the outcome of `_runGateWithTimeout` for this
run (`.ok` the resolved result, `.error` the rejection message). -/
structure GateEntry where
  name : String
  enabled : Bool
  exec : Except String JResult
  deriving DecidableEq

/-- `QualityRunner._runSequential` (QualityRunner.js lines 95-150).
Returns the results list and the names of the gates whose execution was
actually invoked, in order.  Reporter calls are omitted: their return
values are ignored by the source and do not feed back into `results`. -/
def QualityRunner.runSequential (continueOnFailure : Bool) :
    List GateEntry → List JResult × List String
  | [] => ([], [])
  | entry :: rest =>
    if !entry.enabled then
      let skipped : JResult :=
        { status := "skipped", gate := some entry.name,
          reason := some "Gate disabled" }
      let next := QualityRunner.runSequential continueOnFailure rest
      (skipped :: next.1, next.2)
    else
      match entry.exec with
      | Except.ok result =>
        if !continueOnFailure && result.status == "failed" then
          ([result], [entry.name])
        else
          let next := QualityRunner.runSequential continueOnFailure rest
          (result :: next.1, entry.name :: next.2)
      | Except.error e =>
        let errorResult : JResult :=
          { status := "error", gate := some entry.name, error := some e }
        if !continueOnFailure then
          ([errorResult], [entry.name])
        else
          let next := QualityRunner.runSequential continueOnFailure rest
          (errorResult :: next.1, entry.name :: next.2)

/-- `QualityRunner._runParallel` (QualityRunner.js lines 155-201): every
entry is mapped to its result (`Promise.all` keeps registration order);
the policy plays no part.  Second component: names of the gates whose
execution was invoked. -/
def QualityRunner.runParallel (entries : List GateEntry) :
    List JResult × List String :=
  (entries.map (fun entry =>
      if !entry.enabled then
        { status := "skipped", gate := some entry.name,
          reason := some "Gate disabled" }
      else
        match entry.exec with
        | Except.ok result => result
        | Except.error e =>
          { status := "error", gate := some entry.name, error := some e }),
   (entries.filter (fun entry => entry.enabled)).map GateEntry.name)

/-- Per-gate sub-summary of `generateSummary` (ResultReporter.js lines
179-186). -/
structure GateSubSummary where
  total : Nat := 0
  passed : Nat := 0
  failed : Nat := 0
  results : List JResult := []
  deriving DecidableEq

/-- The summary object of `generateSummary` (ResultReporter.js lines
158-202), plus the `duration` / storage fields later call sites attach. -/
structure RunSummary where
  total : Nat
  passed : Nat
  failed : Nat
  skipped : Nat
  errors : Nat
  gates : List (Option String × GateSubSummary)
  timestamp : String
  taskId : Option String
  overallStatus : String := ""
  score : ℚ := 0
  duration : Option Nat := none
  stored : Option Bool := none
  storageId : Option String := none
  storageError : Option String := none
  deriving DecidableEq

/-- JS `result.gateName || result.gate`: `undefined` and the empty
string are falsy. -/
def gateKey (r : JResult) : Option String :=
  match r.gateName with
  | some s => if s == "" then r.gate else some s
  | none => r.gate

/-- Update the entry of `key` in the insertion-ordered gates map,
creating it (JS object key insertion) when absent. -/
def upsertGate (gates : List (Option String × GateSubSummary))
    (key : Option String) (f : GateSubSummary → GateSubSummary) :
    List (Option String × GateSubSummary) :=
  match gates with
  | [] => [(key, f {})]
  | (k, s) :: rest =>
    if k = key then (k, f s) :: rest else (k, s) :: upsertGate rest key f

/-- One iteration of the `generateSummary` loop (ResultReporter.js lines
170-195): status counters, then the per-gate sub-summary. -/
def summaryStep (s : RunSummary) (r : JResult) : RunSummary :=
  let s :=
    { s with
      passed := if r.status == "passed" then s.passed + 1 else s.passed,
      failed := if r.status == "failed" then s.failed + 1 else s.failed,
      skipped := if r.status == "skipped" then s.skipped + 1 else s.skipped,
      errors := if r.status == "error" then s.errors + 1 else s.errors }
  { s with
    gates := upsertGate s.gates (gateKey r) (fun g =>
      { g with
        total := g.total + 1,
        passed := if r.status == "passed" then g.passed + 1 else g.passed,
        failed := if r.status == "failed" then g.failed + 1 else g.failed,
        results := g.results ++ [r] }) }

/-- The summary literal `generateSummary` starts from (ResultReporter.js
lines 159-168); `now` is the `new Date().toISOString()` read. -/
def initSummary (taskId : Option String) (now : String)
    (results : List JResult) : RunSummary :=
  { total := results.length, passed := 0, failed := 0, skipped := 0,
    errors := 0, gates := [], timestamp := now, taskId := taskId }

/-- The two assignments after the loop (ResultReporter.js lines 198-199). -/
def finalizeSummary (s : RunSummary) : RunSummary :=
  { s with
    overallStatus := if 0 < s.failed ∨ 0 < s.errors then "failed" else "passed",
    score := if 0 < s.total then ((s.passed : ℚ) / (s.total : ℚ)) * 100 else 0 }

/-- `ResultReporter.generateSummary` (ResultReporter.js lines 158-202);
the reporter state it reads is `this.taskId`, the clock read is `now`. -/
def ResultReporter.generateSummary (taskId : Option String) (now : String)
    (results : List JResult) : RunSummary :=
  finalizeSummary (results.foldl summaryStep (initSummary taskId now results))

/-- What `storeQualityResult` is handed: a result object or a summary. -/
inductive StoredPayload
  | result (r : JResult)
  | summary (s : RunSummary)

/-- The storage collaborator: `storeQualityResult(taskId, gateName,
payload)` resolves to the stored id or rejects with an error message. -/
def StorageAdapter : Type :=
  String → String → StoredPayload → Except String String

/-- ResultReporter constructor state (ResultReporter.js lines 12-22). -/
structure ResultReporter where
  storageAdapter : Option StorageAdapter := none
  enabled : Bool := true
  taskId : Option String := none
  batchMode : Bool := false
  batchResults : List JResult := []
  reportMetadata : List (String × String) := []

/-- JS object spread `{...base, ...extra}`: keys of `base` in order,
values overridden by `extra`, then the new keys of `extra`. -/
def mergeMeta (base extra : List (String × String)) :
    List (String × String) :=
  (base.map (fun p =>
     match extra.find? (fun q => q.1 == p.1) with
     | some q => (p.1, q.2)
     | none => p))
  ++ extra.filter (fun q => !(base.any (fun p => p.1 == q.1)))

/-- `ResultReporter.reportResult` (ResultReporter.js lines 46-90); `now`
is the `new Date().toISOString()` read.  Returns the reported result and
the updated reporter state. -/
def ResultReporter.reportResult (st : ResultReporter) (now : String)
    (gateName : String) (result : JResult) : JResult × ResultReporter :=
  if !st.enabled then
    (result, st)
  else
    let enhancedResult : JResult :=
      { result with
        gateName := some gateName,
        taskId := st.taskId,
        timestamp := some now,
        metadata := mergeMeta st.reportMetadata result.metadata }
    if st.batchMode then
      (enhancedResult,
       { st with batchResults := st.batchResults ++ [enhancedResult] })
    else
      match st.storageAdapter, st.taskId with
      | some adapter, some tid =>
        match adapter tid gateName (StoredPayload.result result) with
        | Except.ok sid =>
          ({ enhancedResult with stored := some true, storageId := some sid }, st)
        | Except.error msg =>
          ({ enhancedResult with
              stored := some false,
              storageError := some msg }, st)
      | _, _ => (enhancedResult, st)

/-- Summary object built by `flushBatch` (ResultReporter.js lines
117-122). -/
structure BatchSummary where
  total : Nat
  stored : Nat
  failed : Nat
  results : List JResult
  deriving DecidableEq

/-- Return value of `flushBatch`: `{flushed: 0}` or the batch summary. -/
inductive FlushReturn
  | flushedZero
  | batch (s : BatchSummary)
  deriving DecidableEq

/-- The persistence loop of `flushBatch` (ResultReporter.js lines
125-141): accumulates (stored, failed, results), marking each buffered
result with its storage outcome. -/
def flushLoop (adapter : StorageAdapter) (tid : String)
    (acc : Nat × Nat × List JResult) : List JResult → Nat × Nat × List JResult
  | [] => acc
  | r :: rest =>
    match adapter tid (r.gateName.getD "") (StoredPayload.result r) with
    | Except.ok sid =>
      flushLoop adapter tid
        (acc.1 + 1, acc.2.1,
         acc.2.2 ++ [{ r with stored := some true, storageId := some sid }])
        rest
    | Except.error msg =>
      flushLoop adapter tid
        (acc.1, acc.2.1 + 1,
         acc.2.2 ++ [{ r with stored := some false, storageError := some msg }])
        rest

/-- `ResultReporter.flushBatch` (ResultReporter.js lines 112-151): no-op
on an empty batch or outside batch mode; otherwise builds the summary,
runs the persistence loop only when an adapter and a taskId are present,
and always clears the buffer. -/
def ResultReporter.flushBatch (st : ResultReporter) :
    FlushReturn × ResultReporter :=
  if !st.batchMode || st.batchResults.isEmpty then
    (FlushReturn.flushedZero, st)
  else
    match st.storageAdapter, st.taskId with
    | some adapter, some tid =>
      let acc := flushLoop adapter tid (0, 0, []) st.batchResults
      (FlushReturn.batch
         { total := st.batchResults.length, stored := acc.1,
           failed := acc.2.1, results := acc.2.2 },
       { st with batchResults := [] })
    | _, _ =>
      (FlushReturn.batch
         { total := st.batchResults.length, stored := 0, failed := 0,
           results := [] },
       { st with batchResults := [] })

/-- `ResultReporter.storeSummary` (ResultReporter.js lines 209-228). -/
def ResultReporter.storeSummary (st : ResultReporter)
    (summary : RunSummary) : RunSummary :=
  match st.storageAdapter, st.taskId with
  | some adapter, some tid =>
    match adapter tid "summary" (StoredPayload.summary summary) with
    | Except.ok sid =>
      { summary with stored := some true, storageId := some sid }
    | Except.error msg =>
      { summary with stored := some false, storageError := some msg }
  | _, _ => summary

/-! Concrete sample values used by the evaluation, counterexample and
witness theorems. -/

/-- A disabled gate. -/
def disabledGateW : BaseQualityGate :=
  { name := "eslint", enabled := false, retryCount := 2 }

/-- An attempt oracle that would raise if it were ever consulted. -/
def attNeverW : Nat → Except String JResult :=
  fun _ => Except.error "execute was invoked"

/-- A duration oracle. -/
def durZeroW : Nat → Nat := fun _ => 0

/-- A gate with two retries. -/
def gateRetry2W : BaseQualityGate :=
  { name := "eslint", enabled := true, retryCount := 2 }

/-- A passing gate-level result. -/
def passResultW : JResult := { status := "pass" }

/-- A gate with a 50ms deadline and no retries. -/
def gateTimeout50W : BaseQualityGate :=
  { name := "eslint", enabled := true, timeout := 50 }

/-- Runner entry whose gate run resolved with status "pass". -/
def entryG1W : GateEntry :=
  { name := "G1", enabled := true, exec := Except.ok { status := "pass" } }

/-- Runner entry whose gate run resolved with status "fail" (the
spelling the gates actually produce, ESLintGate.js line 61). -/
def entryG2W : GateEntry :=
  { name := "G2", enabled := true, exec := Except.ok { status := "fail" } }

/-- Runner entry whose gate run resolved with status "pass". -/
def entryG3W : GateEntry :=
  { name := "G3", enabled := true, exec := Except.ok { status := "pass" } }

/-- Three gate-level results: two "pass", one "fail". -/
def mixedResultsW : List JResult :=
  [{ status := "pass", gate := some "G1" },
   { status := "pass", gate := some "G2" },
   { status := "fail", gate := some "G3" }]

/-- A storage adapter whose every persistence attempt fails. -/
def failingAdapterW : StorageAdapter :=
  fun _ _ _ => Except.error "disk full"

/-- A reporter wired to the failing adapter, not in batch mode. -/
def reporterStorageW : ResultReporter :=
  { storageAdapter := some failingAdapterW, enabled := true,
    taskId := some "task-1", batchMode := false }

/-- A raw gate result to report. -/
def rawResultW : JResult := { status := "pass", gate := some "eslint" }

/-- A summary to store. -/
def summaryW : RunSummary :=
  ResultReporter.generateSummary (some "task-1") "2024-01-01T00:00:00.000Z" []

/-- A batch-mode reporter with one buffered result and no storage. -/
def reporterBatchW : ResultReporter :=
  { storageAdapter := none, enabled := true, taskId := none,
    batchMode := true,
    batchResults := [{ status := "pass", gateName := some "eslint" }] }

/-! Helper lemmas shared by the claim theorems. -/

/-- With an attempt oracle that raises the same error on every attempt,
the retry loop ends in the final error result carrying that error and
`details.attempts = retryCount + 1`. -/
theorem runFrom_const_error (g : BaseQualityGate) (e : String) (dur : Nat → Nat) :
    ∀ (fuel attempts : Nat) (lastErr : String),
      attempts + fuel = g.retryCount + 1 → 1 ≤ fuel →
      (BaseQualityGate.runFrom g (fun _ => Except.error e) dur attempts fuel lastErr).1
        = { status := "error", gate := some g.name, error := some e,
            detailsAttempts := some (g.retryCount + 1) } := by
  intro fuel
  induction fuel with
  | zero => intro attempts lastErr _ hf; omega
  | succ k ih =>
    intro attempts lastErr hsum _
    unfold BaseQualityGate.runFrom
    dsimp only
    by_cases hle : attempts + 1 ≤ g.retryCount
    · rw [if_pos hle]
      exact ih (attempts + 1) e (by omega) (by omega)
    · rw [if_neg hle]
      have ha : attempts + 1 = g.retryCount + 1 := by omega
      rw [ha]

/-- `summaryStep` neither reads nor writes the timestamp field. -/
theorem summaryStep_timestamp (s : RunSummary) (t : String) (r : JResult) :
    summaryStep { s with timestamp := t } r
      = { summaryStep s r with timestamp := t } := by
  cases s
  rfl

/-- The `generateSummary` loop carries the timestamp field unchanged. -/
theorem foldl_summaryStep_timestamp (rs : List JResult) :
    ∀ (s : RunSummary) (t : String),
      rs.foldl summaryStep { s with timestamp := t }
        = { rs.foldl summaryStep s with timestamp := t } := by
  induction rs with
  | nil => intro s t; rfl
  | cons r rest ih =>
    intro s t
    rw [List.foldl_cons, List.foldl_cons, summaryStep_timestamp s t r,
      ih (summaryStep s r) t]

/-- `finalizeSummary` neither reads nor writes the timestamp field. -/
theorem finalizeSummary_timestamp (s : RunSummary) (t : String) :
    finalizeSummary { s with timestamp := t }
      = { finalizeSummary s with timestamp := t } := by
  cases s
  rfl

/-- The clock reading only lands in the timestamp field: a summary at
clock `t` is the summary at clock `""` with its timestamp replaced. -/
theorem generateSummary_timestamp (taskId : Option String) (t : String)
    (rs : List JResult) :
    ResultReporter.generateSummary taskId t rs
      = { ResultReporter.generateSummary taskId "" rs with timestamp := t } := by
  unfold ResultReporter.generateSummary
  have hinit : initSummary taskId t rs
      = { initSummary taskId "" rs with timestamp := t } := rfl
  rw [hinit, foldl_summaryStep_timestamp, finalizeSummary_timestamp]

/-! The claim theorems. -/

/-- Claim C1 (code bug, evaluated at the failing input): in sequential
mode with continueOnFailure=false and three enabled gates resolving with
statuses "pass", "fail", "pass" (the spellings the gates actually
produce), the stop-on-failure check — which compares against the
spelling "failed" — never fires: the output holds all three results and
G3 is invoked, contradicting the claim that the run stops after G2. -/
theorem claim_c1_seq_stop_not_triggered :
    QualityRunner.runSequential false [entryG1W, entryG2W, entryG3W]
      = ([{ status := "pass" }, { status := "fail" }, { status := "pass" }],
         ["G1", "G2", "G3"]) := by
  decide

/-- Claim C2 (code bug, evaluated at the failing input): in parallel
mode all three gates are executed and the results keep registration
order — that much holds — but the summary over the pass/fail/pass mix
has overallStatus "passed", not "failed" as claimed, because
generateSummary counts only the spelling "failed". -/
theorem claim_c2_parallel_all_run_overall_passed :
    QualityRunner.runParallel [entryG1W, entryG2W, entryG3W]
      = ([{ status := "pass" }, { status := "fail" }, { status := "pass" }],
         ["G1", "G2", "G3"])
    ∧ (ResultReporter.generateSummary none "2024-01-01T00:00:00.000Z"
         (QualityRunner.runParallel [entryG1W, entryG2W, entryG3W]).1).overallStatus
        = "passed" := by
  decide

/-- Claim C3, counterexample: a disabled gate run returns the status
string "skipped", not the literal "skip" the claim names. -/
theorem claim_c3_counterexample :
    (BaseQualityGate.run disabledGateW attNeverW durZeroW).1.status = "skipped"
    ∧ (BaseQualityGate.run disabledGateW attNeverW durZeroW).1.status ≠ "skip" := by
  decide

/-- Claim C3 as amended: for every gate with enabled=false, run returns
immediately the skipped result (status "skipped", reason "Gate is
disabled"); the outcome is the same for every attempt oracle — so
execute is never invoked — and the sleeps list is empty — so no retry
or timeout machinery is engaged. -/
theorem claim_c3_disabled_gate_skipped (g : BaseQualityGate)
    (att : Nat → Except String JResult) (dur : Nat → Nat)
    (hdis : g.enabled = false) :
    BaseQualityGate.run g att dur
      = ({ status := "skipped", gate := some g.name,
           reason := some "Gate is disabled" }, []) := by
  unfold BaseQualityGate.run
  rw [hdis]
  rfl

/-- Claim C3, witness: the amended theorem at a concrete disabled gate. -/
theorem claim_c3_witness :
    disabledGateW.enabled = false
    ∧ BaseQualityGate.run disabledGateW attNeverW durZeroW
        = ({ status := "skipped", gate := some disabledGateW.name,
             reason := some "Gate is disabled" }, []) :=
  ⟨rfl, claim_c3_disabled_gate_skipped disabledGateW attNeverW durZeroW rfl⟩

/-- Claim C4, counterexample: two generateSummary calls on the same
(empty) Result sequence with the two clock readings a repeated call
observes yield different summaries — the timestamp field differs — so
the output is not identical across calls as claimed. -/
theorem claim_c4_counterexample :
    ResultReporter.generateSummary none "2024-01-01T00:00:00.000Z" []
      ≠ ResultReporter.generateSummary none "2024-01-01T00:00:00.001Z" [] := by
  decide

/-- Claim C4 as amended: generateSummary is deterministic in the Result
sequence and the reporter taskId up to the timestamp field — two calls
on the same sequence at any two clock readings agree on every field
except timestamp. -/
theorem claim_c4_summary_deterministic_except_timestamp
    (rs : List JResult) (taskId : Option String) (t1 t2 : String) :
    { ResultReporter.generateSummary taskId t1 rs with timestamp := "" }
      = { ResultReporter.generateSummary taskId t2 rs with timestamp := "" } := by
  rw [generateSummary_timestamp taskId t1 rs, generateSummary_timestamp taskId t2 rs]

/-- Claim C5: a gate with retryCount=2 whose attempts 1 and 2 raise and
whose attempt 3 succeeds returns the successful result wrapped with
attempts=3, and the backoff sleeps awaited before the two retries are
1000·1 and 1000·2 milliseconds (baseDelay times the attempt number). -/
theorem claim_c5_retry_attempts (g : BaseQualityGate) (e1 e2 : String)
    (r : JResult) (dur : Nat → Nat)
    (hen : g.enabled = true) (hrc : g.retryCount = 2) :
    BaseQualityGate.run g
      (fun n => if n == 1 then Except.error e1
                else if n == 2 then Except.error e2 else Except.ok r) dur
      = ({ r with
            gate := some g.name,
            duration := some (dur 3),
            attempts := some 3 }, [1000 * 1, 1000 * 2]) := by
  obtain ⟨name, enabled, timeout, retryCount, ft⟩ := g
  simp only at hen hrc
  subst hen hrc
  rfl

/-- Claim C5, witness: the theorem at a concrete gate and oracle. -/
theorem claim_c5_witness :
    gateRetry2W.enabled = true ∧ gateRetry2W.retryCount = 2
    ∧ BaseQualityGate.run gateRetry2W
        (fun n => if n == 1 then Except.error "boom1"
                  else if n == 2 then Except.error "boom2"
                  else Except.ok passResultW) (fun _ => 7)
        = ({ passResultW with
              gate := some gateRetry2W.name,
              duration := some 7,
              attempts := some 3 }, [1000 * 1, 1000 * 2]) :=
  ⟨rfl, rfl,
   claim_c5_retry_attempts gateRetry2W "boom1" "boom2" passResultW
     (fun _ => 7) rfl rfl⟩

/-- Claim C6: when every attempt ends in the synthesized timeout
rejection (execute never resolves within the deadline), run yields a
final result with status "error" whose message is the timeout message —
which mentions the configured duration, as the explicit decomposition
shows — and whose recorded attempts count is retryCount+1 ≥ 1. -/
theorem claim_c6_timeout_error_result (g : BaseQualityGate)
    (dur : Nat → Nat) (hen : g.enabled = true) :
    (BaseQualityGate.run g
        (fun _ => Except.error (timeoutMessage g.name g.timeout)) dur).1
      = { status := "error", gate := some g.name,
          error := some (timeoutMessage g.name g.timeout),
          detailsAttempts := some (g.retryCount + 1) }
    ∧ 1 ≤ g.retryCount + 1
    ∧ ∃ pre post,
        timeoutMessage g.name g.timeout = pre ++ toString g.timeout ++ post := by
  refine ⟨?_, by omega, ⟨"Gate " ++ g.name ++ " timed out after ", "ms", rfl⟩⟩
  have h := runFrom_const_error g (timeoutMessage g.name g.timeout) dur
    (g.retryCount + 1) 0 "" (by omega) (by omega)
  simpa [BaseQualityGate.run, hen] using h

/-- Claim C6, witness: the theorem at a gate with a 50ms deadline; the
timeout message evaluates to "Gate eslint timed out after 50ms". -/
theorem claim_c6_witness :
    gateTimeout50W.enabled = true
    ∧ (BaseQualityGate.run gateTimeout50W
         (fun _ => Except.error
            (timeoutMessage gateTimeout50W.name gateTimeout50W.timeout))
         durZeroW).1
        = { status := "error", gate := some gateTimeout50W.name,
            error := some (timeoutMessage gateTimeout50W.name gateTimeout50W.timeout),
            detailsAttempts := some (gateTimeout50W.retryCount + 1) }
    ∧ timeoutMessage gateTimeout50W.name gateTimeout50W.timeout
        = "Gate eslint timed out after 50ms" :=
  ⟨rfl, (claim_c6_timeout_error_result gateTimeout50W durZeroW rfl).1, by decide⟩

/-- Claim C7 (code bug, evaluated at the failing input): generateSummary
over three results carrying the gate-level statuses "pass", "pass",
"fail" counts none of them — it matches only the spellings "passed" and
"failed" — so it reports passed=0, failed=0, score=0 and overallStatus
"passed", instead of the claimed total=3, passed=2, failed=1,
score=66.6… with a failed overall status. -/
theorem claim_c7_summary_vocab_mismatch :
    (ResultReporter.generateSummary none "2024-01-01T00:00:00.000Z"
        mixedResultsW).total = 3
    ∧ (ResultReporter.generateSummary none "2024-01-01T00:00:00.000Z"
        mixedResultsW).passed = 0
    ∧ (ResultReporter.generateSummary none "2024-01-01T00:00:00.000Z"
        mixedResultsW).failed = 0
    ∧ (ResultReporter.generateSummary none "2024-01-01T00:00:00.000Z"
        mixedResultsW).score = 0
    ∧ (ResultReporter.generateSummary none "2024-01-01T00:00:00.000Z"
        mixedResultsW).overallStatus = "passed" := by
  have hp : (mixedResultsW.foldl summaryStep
      (initSummary none "2024-01-01T00:00:00.000Z" mixedResultsW)).passed = 0 := by
    decide
  have htot : (mixedResultsW.foldl summaryStep
      (initSummary none "2024-01-01T00:00:00.000Z" mixedResultsW)).total = 3 := by
    decide
  refine ⟨by decide, by decide, by decide, ?_, by decide⟩
  unfold ResultReporter.generateSummary finalizeSummary
  dsimp only
  rw [hp, htot]
  norm_num

/-- Claim C8: when the storage collaborator fails, reportResult (outside
batch mode, with adapter and taskId present) still returns normally the
enhanced result — unchanged except for stored=false and the
storageError message — with the reporter state untouched, and
storeSummary likewise returns the summary unchanged except for
stored=false and storageError; no failure escapes to the caller. -/
theorem claim_c8_storage_failure_nonfatal
    (st : ResultReporter) (now gateName : String) (result : JResult)
    (adapter : StorageAdapter) (tid m1 m2 : String) (summary : RunSummary)
    (hen : st.enabled = true) (hb : st.batchMode = false)
    (hsa : st.storageAdapter = some adapter) (ht : st.taskId = some tid)
    (h1 : adapter tid gateName (StoredPayload.result result) = Except.error m1)
    (h2 : adapter tid "summary" (StoredPayload.summary summary) = Except.error m2) :
    ResultReporter.reportResult st now gateName result
      = ({ result with
            gateName := some gateName,
            taskId := some tid,
            timestamp := some now,
            metadata := mergeMeta st.reportMetadata result.metadata,
            stored := some false,
            storageError := some m1 }, st)
    ∧ ResultReporter.storeSummary st summary
        = { summary with stored := some false, storageError := some m2 } := by
  constructor
  · simp only [ResultReporter.reportResult, hen, hb, hsa, ht, h1,
      Bool.not_true, Bool.false_eq_true, if_false]
  · simp only [ResultReporter.storeSummary, hsa, ht, h2]

/-- Claim C8, witness: the theorem at a reporter wired to an adapter
whose every persistence attempt fails. -/
theorem claim_c8_witness :
    reporterStorageW.enabled = true
    ∧ reporterStorageW.batchMode = false
    ∧ reporterStorageW.storageAdapter = some failingAdapterW
    ∧ reporterStorageW.taskId = some "task-1"
    ∧ failingAdapterW "task-1" "eslint" (StoredPayload.result rawResultW)
        = Except.error "disk full"
    ∧ failingAdapterW "task-1" "summary" (StoredPayload.summary summaryW)
        = Except.error "disk full"
    ∧ ResultReporter.reportResult reporterStorageW "2024-01-01T00:00:00.000Z"
        "eslint" rawResultW
        = ({ rawResultW with
              gateName := some "eslint",
              taskId := some "task-1",
              timestamp := some "2024-01-01T00:00:00.000Z",
              metadata := mergeMeta reporterStorageW.reportMetadata
                rawResultW.metadata,
              stored := some false,
              storageError := some "disk full" }, reporterStorageW)
    ∧ ResultReporter.storeSummary reporterStorageW summaryW
        = { summaryW with
            stored := some false,
            storageError := some "disk full" } :=
  ⟨rfl, rfl, rfl, rfl, rfl, rfl,
   (claim_c8_storage_failure_nonfatal reporterStorageW
      "2024-01-01T00:00:00.000Z" "eslint" rawResultW failingAdapterW
      "task-1" "disk full" "disk full" summaryW
      rfl rfl rfl rfl rfl rfl).1,
   (claim_c8_storage_failure_nonfatal reporterStorageW
      "2024-01-01T00:00:00.000Z" "eslint" rawResultW failingAdapterW
      "task-1" "disk full" "disk full" summaryW
      rfl rfl rfl rfl rfl rfl).2⟩

/-- Claim C10: flushBatch in batch mode on a non-empty batch always
clears the buffer — for every storage adapter, a failing one included —
and when no adapter or no taskId is configured the returned summary has
total equal to the buffered count, stored=0, failed=0 and an empty
results list. -/
theorem claim_c10_flush_clears_batch (st : ResultReporter)
    (hb : st.batchMode = true) (hne : st.batchResults ≠ []) :
    (ResultReporter.flushBatch st).2.batchResults = []
    ∧ ((st.storageAdapter = none ∨ st.taskId = none) →
        ResultReporter.flushBatch st
          = (FlushReturn.batch
               { total := st.batchResults.length, stored := 0, failed := 0,
                 results := [] },
             { st with batchResults := [] })) := by
  obtain ⟨sa, en, tid, bm, br, md⟩ := st
  simp only at hb hne
  subst hb
  cases br with
  | nil => exact absurd rfl hne
  | cons a l =>
    cases sa with
    | none =>
      cases tid with
      | none => exact ⟨rfl, fun _ => rfl⟩
      | some t => exact ⟨rfl, fun _ => rfl⟩
    | some adapter =>
      cases tid with
      | none => exact ⟨rfl, fun _ => rfl⟩
      | some t =>
        refine ⟨rfl, fun h => ?_⟩
        rcases h with h | h <;> exact absurd h (by simp)

/-- Claim C10, witness: the theorem at a batch-mode reporter holding one
buffered result and no storage adapter. -/
theorem claim_c10_witness :
    reporterBatchW.batchMode = true
    ∧ reporterBatchW.batchResults ≠ []
    ∧ (ResultReporter.flushBatch reporterBatchW).2.batchResults = []
    ∧ ResultReporter.flushBatch reporterBatchW
        = (FlushReturn.batch
             { total := reporterBatchW.batchResults.length, stored := 0,
               failed := 0, results := [] },
           { reporterBatchW with batchResults := [] }) :=
  ⟨rfl, by decide,
   (claim_c10_flush_clears_batch reporterBatchW rfl (by decide)).1,
   (claim_c10_flush_clears_batch reporterBatchW rfl (by decide)).2 (Or.inl rfl)⟩

end QualityGates
